import Mathlib

/-!
Shallow embedding of the status-upstream agent (Rust sources under src/).
Pure functions are translated directly; network and file I/O is modelled by
passing the observable outcome of each I/O step (connect result, bytes read,
reporter success flag, parse results) as explicit parameters, while all
control flow, state updates and comparisons mirror the Rust source.
-/

namespace StatusUpstream

/- ===== connlib.rs, mod server_last_status ===== -/

/-- `enum ServerLastStatus` (connlib.rs).  The source really names the
operational variant `Optional`; we keep the source's spelling. -/
inductive ServerLastStatus
  | Optional
  | Outage
  | DegradedPerformance
  | PartialOutage
  | Unknown
deriving DecidableEq

/-- `enum ComponentStatus` (statuspagelib.rs, mod v1). -/
inductive ComponentStatus
  | Operational
  | UnderMaintenance
  | DegradedPerformance
  | PartialOutage
  | MajorOutage
deriving DecidableEq

/-- `impl Display for ServerLastStatus` (connlib.rs). -/
def serverLastStatusToString : ServerLastStatus → String
  | .Optional => "operational"
  | .Outage => "major_outage"
  | .DegradedPerformance => "degraded_performance"
  | .PartialOutage => "partial_outage"
  | .Unknown => "unknown"

/-- `impl TryFrom<&str> for ServerLastStatus` (connlib.rs).  The source
returns `Ok` in every arm (the catch-all arm yields `Unknown`), so the
embedding is total. -/
def serverLastStatusOfString : String → ServerLastStatus
  | "operational" => .Optional
  | "major_outage" => .Outage
  | "degraded_performance" => .DegradedPerformance
  | "partial_outage" => .PartialOutage
  | _ => .Unknown

/-- `impl From<&ServerLastStatus> for ComponentStatus` (statuspagelib.rs
lines 91-101).  The `Unknown` arm is `unreachable!()` in the source, i.e. a
panic; the embedding returns `none` there. -/
def componentStatusOfLast : ServerLastStatus → Option ComponentStatus
  | .Optional => some .Operational
  | .Outage => some .MajorOutage
  | .DegradedPerformance => some .DegradedPerformance
  | .PartialOutage => some .PartialOutage
  | .Unknown => none

/-- `impl From<&ComponentStatus> for ServerLastStatus` (connlib.rs 318-327);
the catch-all arm maps `UnderMaintenance` and `MajorOutage` to `Outage`. -/
def serverLastStatusOfComponentStatus : ComponentStatus → ServerLastStatus
  | .Operational => .Optional
  | .DegradedPerformance => .DegradedPerformance
  | .PartialOutage => .PartialOutage
  | _ => .Outage

/-- `impl TryFrom<&str> for ComponentStatus` (statuspagelib.rs 50-63);
`none` is the `Err` arm. -/
def componentStatusOfString : String → Option ComponentStatus
  | "operational" => some .Operational
  | "under_maintenance" => some .UnderMaintenance
  | "degraded_performance" => some .DegradedPerformance
  | "partial_outage" => some .PartialOutage
  | "major_outage" => some .MajorOutage
  | _ => none

/-- `impl Display for ComponentStatus` (statuspagelib.rs 75-89). -/
def componentStatusToString : ComponentStatus → String
  | .Operational => "operational"
  | .UnderMaintenance => "under_maintenance"
  | .DegradedPerformance => "degraded_performance"
  | .PartialOutage => "partial_outage"
  | .MajorOutage => "major_outage"

/-- `impl From<Vec<bool>> for ServerLastStatus` (connlib.rs 359-384).
The source's `match v.len()` with arms `2`, `n if n > 2` and a final
`unreachable!()` is written as nested ifs; the `unreachable!()` arm
(length 0 or 1 with mixed entries, which cannot happen) is mapped to
`Unknown`.  The source computes `degraded_level = n as f32 / 3.0 * 2.0` and
compares `answer as f32 / n as f32 >= degraded_level` in f32; the embedding
uses exact rationals, which decides the comparison identically: the left
side is at most 1 and the right side at least 2 (both in exact arithmetic
and after f32 rounding, whose relative error is far below the gap of 1), so
the comparison is false in both semantics for every mixed vector. -/
def serverLastStatusOfVec (v : List Bool) : ServerLastStatus :=
  if v.isEmpty then .Unknown
  else if v.all (fun x => x) then .Optional
  else if !(v.any (fun x => x)) then .Outage
  else if v.length = 2 then .PartialOutage
  else if 2 < v.length then
    -- `answer` is `v.iter().filter(|x| **x == true).count()`, `n` is `v.len()`
    if ((v.filter (fun x => x == true)).length : ℚ) / (v.length : ℚ)
        ≥ (v.length : ℚ) / 3 * 2 then .DegradedPerformance
    else .PartialOutage
  else .Unknown

/- ===== connlib.rs: services and the hysteresis state ===== -/

/-- `enum ServiceType` (connlib.rs 32-40); the `ICMP` variant is gated
behind the non-default `ping` cargo feature and is omitted, as is its
`"icmp" | "ping"` parsing arm below. -/
inductive ServiceType
  | HTTP
  | SSH
  | TeamSpeak
  | Tcping
deriving DecidableEq

/-- `struct PingAbleService` (connlib.rs 389-393). -/
structure PingAbleService where
  remote_address : String
  service_type : ServiceType
deriving DecidableEq

/-- `struct ServiceWrapper` (connlib.rs 465-472). -/
structure ServiceWrapper where
  last_status : ServerLastStatus
  services : List PingAbleService
  report_uuid : String
  page : String
  count : Nat
deriving DecidableEq

/-- `ServiceWrapper::ongoing_recheck` (connlib.rs 483-485). -/
def ongoing_recheck (s : ServiceWrapper) : Bool :=
  s.count > 0

/-- `ServiceWrapper::update_last_status_condition` (connlib.rs 499-517).
`count` and `condition` are u64 in the source; `Nat` is exact here because
the counter is only ever incremented while `count < condition < 2^64`, so
the increment cannot wrap. -/
def update_last_status_condition (s : ServiceWrapper) (last_status : ServerLastStatus)
    (condition : Nat) : ServiceWrapper × Bool :=
  if s.last_status ≠ last_status then
    if s.count ≥ condition then
      ({ s with last_status := last_status, count := 0 }, true)
    else
      ({ s with count := s.count + 1 }, false)
  else
    ({ s with count := 0 }, false)

/-- `ServiceWrapper::reset_count` (connlib.rs 519-521). -/
def reset_count (s : ServiceWrapper) : ServiceWrapper :=
  { s with count := 0 }

/-- Folds `update_last_status_condition` over a sequence of candidate
statuses (one probe round each), as the scheduler does. -/
def applyCandidates (condition : Nat) : ServiceWrapper → List ServerLastStatus → ServiceWrapper
  | s, [] => s
  | s, c :: cs => applyCandidates condition (update_last_status_condition s c condition).1 cs

/-- Applies `n` rounds in which the candidate equals the then-current
status (the idempotence scenario of the spec). -/
def repeatSameCandidate (condition : Nat) : Nat → ServiceWrapper → ServiceWrapper
  | 0, s => s
  | n + 1, s =>
    repeatSameCandidate condition n (update_last_status_condition s s.last_status condition).1

/- ===== connlib.rs: probe implementations =====
Each `ping` does network I/O; the embedding takes the observable outcome of
every I/O step as a parameter and reproduces the source's control flow,
including which failures are routed through `?` (and therefore become `Err`)
and which fall through to `Ok(false)`. -/

/-- Error outcomes of a probe `ping`: `elapsed` is
`tokio::time::error::Elapsed` escaping through `.await?`; `ioError` is any
other propagated error. -/
inductive PingError
  | elapsed
  | ioError
deriving DecidableEq

/-- Result of `tokio::time::timeout(_, TcpStream::connect(_)).await` as
observed by `ssh::SSH::ping`: the timeout fired, the connect finished with
an I/O error, or it produced a socket. -/
inductive TcpConnectResult
  | elapsed
  | connErr
  | connected
deriving DecidableEq

/-- Result of the timed `socket.write_all(&HEAD_DATA)` step. -/
inductive TcpWriteResult
  | elapsed
  | writeErr
  | written
deriving DecidableEq

/-- Result of the timed `socket.read(&mut buff)` step: either the timeout
fired, or the future completed and left `data` in the buffer (a completed
read that failed with an I/O error leaves the buffer untouched, i.e.
`data = []`, because the source only checks the timeout layer's `Ok`). -/
inductive TcpReadResult
  | elapsed
  | completed (data : List Nat)
deriving DecidableEq

/-- `HEAD_DATA` of `mod ssh` (connlib.rs 91): the 21 bytes of
`SSH-2.0-OpenSSH_8.7\r\n`, written to the socket right after connecting. -/
def sshHeadData : List Nat :=
  [0x53, 0x53, 0x48, 0x2d, 0x32, 0x2e, 0x30, 0x2d, 0x4f, 0x70, 0x65, 0x6e,
   0x53, 0x53, 0x48, 0x5f, 0x38, 0x2e, 0x37, 0x0d, 0x0a]

/-- The ASCII bytes of `"SSH"`. -/
def sshPat : List Nat :=
  [0x53, 0x53, 0x48]

/-- `pat` occurs at the head of `l`. -/
def leadMatch : List Nat → List Nat → Bool
  | [], _ => true
  | _ :: _, [] => false
  | p :: ps, x :: xs => p == x && leadMatch ps xs

/-- `pat` occurs contiguously somewhere in `l`; models
`String::from_utf8_lossy(&buff).contains("SSH")` at the byte level (the
pattern is plain ASCII, which lossy UTF-8 decoding preserves exactly). -/
def containsSeq (pat : List Nat) : List Nat → Bool
  | [] => leadMatch pat []
  | x :: xs => leadMatch pat (x :: xs) || containsSeq pat xs

/-- The 64-byte read buffer `[0; 64]` after a read deposited `data`:
at most 64 bytes of data, the remainder still zero. -/
def sshBuffer (data : List Nat) : List Nat :=
  data.take 64 ++ List.replicate (64 - (data.take 64).length) 0

instance {ε α : Type _} [DecidableEq ε] [DecidableEq α] : DecidableEq (Except ε α) := fun x y =>
  match x, y with
  | .ok a, .ok b =>
    if h : a = b then isTrue (congrArg Except.ok h)
    else isFalse (fun hc => h (Except.ok.inj hc))
  | .error a, .error b =>
    if h : a = b then isTrue (congrArg Except.error h)
    else isFalse (fun hc => h (Except.error.inj hc))
  | .ok _, .error _ => isFalse (fun hc => Except.noConfusion hc)
  | .error _, .ok _ => isFalse (fun hc => Except.noConfusion hc)

/-- Observable behaviour of one `ssh::SSH::ping` call: the bytes written to
the socket and the returned `Result`. -/
structure SSHOutput where
  sent : List Nat
  result : Except PingError Bool
deriving DecidableEq

/-- `ssh::SSH::ping` (connlib.rs 105-129).  The connect and write timeouts
escape through `.await?` as `Err(Elapsed)`; a connect or write I/O error
falls through to `Ok(false)`; the read timeout also falls through to
`Ok(false)` (no `?` on that line); a completed read returns whether the
buffer contains `"SSH"`.  `sent` records the banner bytes pushed by
`write_all` (counted only once the write completed). -/
def SSH.ping (c : TcpConnectResult) (w : TcpWriteResult) (r : TcpReadResult) : SSHOutput :=
  match c with
  | .elapsed => ⟨[], .error .elapsed⟩
  | .connErr => ⟨[], .ok false⟩
  | .connected =>
    match w with
    | .elapsed => ⟨[], .error .elapsed⟩
    | .writeErr => ⟨[], .ok false⟩
    | .written =>
      match r with
      | .elapsed => ⟨sshHeadData, .ok false⟩
      | .completed data => ⟨sshHeadData, .ok (containsSeq sshPat (sshBuffer data))⟩

/-- Outcome of `UdpSocket::bind("0.0.0.0:0").await` in
`teamspeak::TeamSpeak::ping`; an error escapes through `?`. -/
inductive UdpBindResult
  | bindOk
  | bindErr
deriving DecidableEq

/-- Outcome of `socket.send_to(&HEAD_DATA, _).await`; an error escapes
through `?`. -/
inductive UdpSendResult
  | sendOk
  | sendErr
deriving DecidableEq

/-- Outcome of the timed `socket.recv_from(&mut buf)` step: timeout fired,
the receive failed with an I/O error, or `amt` bytes arrived. -/
inductive UdpRecvResult
  | elapsed
  | ioErr
  | received (amt : Nat)
deriving DecidableEq

/-- `teamspeak::TeamSpeak::ping` (connlib.rs 61-81).  The receive timeout
escapes through `.await?` as `Err(Elapsed)`; a receive I/O error falls into
the `else` branch, `Ok(false)`; a reply of `amt` bytes yields
`Ok(amt != 0)`. -/
def TeamSpeak.ping (b : UdpBindResult) (s : UdpSendResult) (r : UdpRecvResult) :
    Except PingError Bool :=
  match b with
  | .bindErr => .error .ioError
  | .bindOk =>
    match s with
    | .sendErr => .error .ioError
    | .sendOk =>
      match r with
      | .elapsed => .error .elapsed
      | .ioErr => .ok false
      | .received amt => .ok (amt ≠ 0)

/-- Outcome of the timed `TcpStream::connect` in `tcping::Tcping::ping`,
with the three `ErrorKind`s the source distinguishes. -/
inductive TcpingConnectResult
  | elapsed
  | connected
  | refused
  | reset
  | aborted
  | otherErr
deriving DecidableEq

/-- `tcping::Tcping::ping` (connlib.rs 188-208).  The connect timeout
escapes through `.await?` as `Err(Elapsed)`; `ConnectionRefused`,
`ConnectionReset` and `ConnectionAborted` yield `Ok(false)`; any other
connect error is returned as `Err`. -/
def Tcping.ping : TcpingConnectResult → Except PingError Bool
  | .elapsed => .error .elapsed
  | .connected => .ok true
  | .refused => .ok false
  | .reset => .ok false
  | .aborted => .ok false
  | .otherErr => .error .ioError

/-- The `match ret` at the end of `PingAbleService::ping` (connlib.rs
416-423): an `Ok` value is passed through, an `Err` that is
`tokio::time::error::Elapsed` becomes `false`, and any other `Err` is
logged and also becomes `false`. -/
def PingAbleService.pingWrap : Except PingError Bool → Bool
  | .ok b => b
  | .error _ => false

/- ===== main.rs: the scheduler (`main_work`) ===== -/

/-- The two ways the body of `main_work` can abort: the `?` on
`upstream.set_component_status(..)` propagating a reporter error, and the
`unreachable!()` panic inside `ComponentStatus::from(&ServerLastStatus)`
when the freshly confirmed status is `Unknown`. -/
inductive MainError
  | reporterFailed
  | panicUnknown
deriving DecidableEq

/-- `ServiceWrapper::ping` (connlib.rs 487-497) joins one boolean per
configured address; `up j` is the outcome `PingAbleService::ping` returned
for the `j`-th address (that function never errors: its trailing `match`
maps every `Err` to `false`). -/
def ServiceWrapper.pingVec (up : Nat → Bool) (s : ServiceWrapper) : List Bool :=
  (List.range s.services.length).map up

/-- Result of one sub-round (`for service in config.mut_services()` in
`main_work`): the per-component states after the loop, one flag per
component telling whether it was probed, and the error that aborted the
loop, if any.  On an abort the components after the failing one keep their
previous state, exactly as the in-place mutation in the source leaves
them. -/
structure SubRoundResult where
  services : List ServiceWrapper
  probed : List Bool
  err : Option MainError
deriving DecidableEq

/-- The body of `for service in config.mut_services()` in `main_work`
(main.rs 54-71), for sub-round `times`: skip a component when `times > 0`
and it is not in ongoing recheck; otherwise ping it, derive the candidate
status, apply `update_last_status_condition` with the given confirmation
`condition`, and on a confirmed change convert the new status for the
reporter (a panic if it is `Unknown`) and call the reporter, whose failure
escapes through `?`.  `probe i j` is the probe outcome for address `j` of
component `i`; `rep uuid page st` tells whether the reporter call
succeeded. -/
def runServices (probe : Nat → Nat → Bool) (rep : String → String → ComponentStatus → Bool)
    (times condition : Nat) : Nat → List ServiceWrapper → SubRoundResult
  | _, [] => ⟨[], [], none⟩
  | i, s :: rest =>
    if 0 < times ∧ ongoing_recheck s = false then
      let r := runServices probe rep times condition (i + 1) rest
      ⟨s :: r.services, false :: r.probed, r.err⟩
    else
      let result := serverLastStatusOfVec (ServiceWrapper.pingVec (probe i) s)
      let u := update_last_status_condition s result condition
      if u.2 then
        match componentStatusOfLast u.1.last_status with
        | none => ⟨u.1 :: rest, true :: List.replicate rest.length false, some .panicUnknown⟩
        | some cs =>
          if rep u.1.report_uuid u.1.page cs then
            let r := runServices probe rep times condition (i + 1) rest
            ⟨u.1 :: r.services, true :: r.probed, r.err⟩
          else
            ⟨u.1 :: rest, true :: List.replicate rest.length false, some .reporterFailed⟩
      else
        let r := runServices probe rep times condition (i + 1) rest
        ⟨u.1 :: r.services, true :: r.probed, r.err⟩

/-- The `for times in 0..retries` loop of `main_work`: runs the remaining
sub-rounds starting at sub-round `times`, stopping at the first error.
`probe t i j` and `rep t uuid page st` are the per-sub-round oracles. -/
def runRounds (probe : Nat → Nat → Nat → Bool)
    (rep : Nat → String → String → ComponentStatus → Bool) (condition : Nat) :
    Nat → Nat → List ServiceWrapper → List ServiceWrapper × Option MainError
  | _, 0, svcs => (svcs, none)
  | t, n + 1, svcs =>
    let r := runServices (probe t) (rep t) t condition 0 svcs
    match r.err with
    | some e => (r.services, some e)
    | none => runRounds probe rep condition (t + 1) n r.services

/-- `main_work` (main.rs 45-78): `retries` sub-rounds with confirmation
condition `retries - 1`, then — only when no error escaped — the final
`reset_count` loop over every component. -/
def main_work (probe : Nat → Nat → Nat → Bool)
    (rep : Nat → String → String → ComponentStatus → Bool) (retries : Nat)
    (svcs : List ServiceWrapper) : List ServiceWrapper × Option MainError :=
  let r := runRounds probe rep (retries - 1) 0 retries svcs
  match r.2 with
  | some e => (r.1, some e)
  | none => (r.1.map reset_count, none)

/- ===== cache.rs: the cache store ===== -/

/-- `v2::VERSION`, re-exported as `CURRENT_VERSION` (cache.rs 141, 170). -/
def CURRENT_VERSION : Nat := 2

/-- `DEADLINE` (cache.rs 21). -/
def DEADLINE : Nat := 600

/-- `struct PreReadCacheData` (cache.rs 88-92): the lightweight
`{version, timestamp}` header. -/
structure PreReadCacheData where
  version : Nat
  timestamp : Nat
deriving DecidableEq

/-- `v2::ComponentCache` (cache.rs 143-147). -/
structure ComponentCache where
  id : String
  last_status : String
deriving DecidableEq

/-- `struct CacheData` (cache.rs 103-108). -/
structure CacheData where
  version : Nat
  timestamp : Nat
  data : List ComponentCache
deriving DecidableEq

/-- The error cases of `read_cache`, in source order: the file read failing,
the header JSON not parsing, `VersionNotMatchError`, `OutdatedError`, and
the full-body JSON not parsing. -/
inductive CacheError
  | ioError
  | decodeError
  | versionNotMatch (found : Nat)
  | outdated
  | decodeFullError
deriving DecidableEq

/-- u64 subtraction as compiled in release mode (two's-complement
wrapping), for `get_current_timestamp() - result.timestamp()`; both
arguments are u64 values, i.e. below `2^64`. -/
def u64Sub (a b : Nat) : Nat :=
  (2 ^ 64 + a - b) % 2 ^ 64

/-- `read_cache` (cache.rs 175-197).  The file content is abstracted to
the pair of parse outcomes serde would produce on it: `none` for a failed
`tokio::fs::read_to_string`, otherwise the header parse (`PreReadCacheData`)
and the full parse (`CacheData`).  Control flow follows the source: header
parse, version check against `CURRENT_VERSION`, staleness check against
`DEADLINE`, full parse. -/
def read_cache (content : Option (Option PreReadCacheData × Option CacheData)) (now : Nat) :
    Except CacheError CacheData :=
  match content with
  | none => .error .ioError
  | some (pre, full) =>
    match pre with
    | none => .error .decodeError
    | some p =>
      if p.version ≠ CURRENT_VERSION then .error (.versionNotMatch p.version)
      else if u64Sub now p.timestamp > DEADLINE then .error .outdated
      else
        match full with
        | none => .error .decodeFullError
        | some d => .ok d

/-- `impl From<&ServiceWrapper> for ComponentCache` (cache.rs 158-165). -/
def ComponentCache.fromService (s : ServiceWrapper) : ComponentCache :=
  ⟨s.report_uuid, serverLastStatusToString s.last_status⟩

/-- `CacheData::from_configure` (cache.rs 121-134), with
`get_current_timestamp()` passed in as `now`. -/
def CacheData.from_configure (services : List ServiceWrapper) (now : Nat) : CacheData :=
  ⟨CURRENT_VERSION, now, services.map ComponentCache.fromService⟩

/- ===== configure.rs: configuration loading ===== -/

/-- The shapes of `toml::Value` that `TryInto<Vec<Service>>` distinguishes
for the `addresses` field: a string, an array, or anything else. -/
inductive TValue
  | str (s : String)
  | arr (l : List TValue)
  | other

/-- `struct TomlComponent` (configure.rs 248-253). -/
structure TomlComponent where
  addresses : TValue
  identity_id : String
  page : String

/-- `struct Service` (configure.rs 176-180). -/
structure Service where
  address : String
  service_type : String
deriving DecidableEq

/-- `struct Component` (configure.rs 222-227). -/
structure Component where
  addresses : List Service
  identity_id : String
  page : String
deriving DecidableEq

/-- The recoverable error values produced while turning toml data into
services (the `anyhow!` messages of configure.rs and connlib.rs). -/
inductive ConfError
  | formatError
  | unexpectedServiceType
  | unexpectedValueInArray
  | unexpectedValueInAddresses
deriving DecidableEq

/-- `str::to_lowercase`, restricted to ASCII (every string it is applied
to in the source — service-type keywords and status-page ids — is ASCII,
where Rust's Unicode lowercasing agrees with per-character ASCII
lowercasing). -/
def lowerString (s : String) : String :=
  String.mk (s.toList.map Char.toLower)

/-- `str::split_once` on a character: splits at the first occurrence,
`none` when the character does not occur. -/
def splitOnceChar (c : Char) : List Char → Option (List Char × List Char)
  | [] => none
  | x :: xs =>
    if x = c then some ([], xs)
    else
      match splitOnceChar c xs with
      | none => none
      | some (a, b) => some (x :: a, b)

/-- `impl TryFrom<&str> for Service` (configure.rs 199-212): require a
`'|'`, split once on it into address and service type. -/
def Service.tryFromString (value : String) : Except ConfError Service :=
  match splitOnceChar (Char.ofNat 124) value.toList with
  | none => .error .formatError
  | some (a, b) => .ok ⟨String.mk a, String.mk b⟩

/-- `impl TryFrom<&Service> for PingAbleService` (connlib.rs 427-452):
lowercase the service type and match it (the `"icmp" | "ping"` arm is
feature-gated out). -/
def PingAbleService.tryFromService (s : Service) : Except ConfError PingAbleService :=
  match lowerString s.service_type with
  | "teamspeak" => .ok ⟨s.address, .TeamSpeak⟩
  | "ts" => .ok ⟨s.address, .TeamSpeak⟩
  | "ssh" => .ok ⟨s.address, .SSH⟩
  | "http" => .ok ⟨s.address, .HTTP⟩
  | "tcping" => .ok ⟨s.address, .Tcping⟩
  | _ => .error .unexpectedServiceType

/-- The element loop inside the `Value::Array` arm of
`TryInto<Vec<Service>>` (configure.rs 284-291). -/
def servicesOfArray : List TValue → Except ConfError (List Service)
  | [] => .ok []
  | .str s :: rest =>
    match Service.tryFromString s with
    | .error e => .error e
    | .ok sv =>
      match servicesOfArray rest with
      | .error e => .error e
      | .ok svs => .ok (sv :: svs)
  | _ :: _ => .error .unexpectedValueInArray

/-- `TomlComponent::try_get_services` / `TryInto<Vec<Service>>`
(configure.rs 256-296). -/
def TomlComponent.try_get_services (t : TomlComponent) : Except ConfError (List Service) :=
  match t.addresses with
  | .str s =>
    match Service.tryFromString s with
    | .error e => .error e
    | .ok sv => .ok [sv]
  | .arr l => servicesOfArray l
  | .other => .error .unexpectedValueInAddresses

/-- `impl TryInto<Component> for TomlComponent` (configure.rs 261-271). -/
def TomlComponent.tryIntoComponent (t : TomlComponent) : Except ConfError Component :=
  match t.try_get_services with
  | .error e => .error e
  | .ok svs => .ok ⟨svs, t.identity_id, t.page⟩

/-- The address loop of `ServiceWrapper::new_with_last_status`
(connlib.rs 531-546): convert every `Service`, first failure aborts. -/
def pingAbleListOfServices : List Service → Except ConfError (List PingAbleService)
  | [] => .ok []
  | s :: rest =>
    match PingAbleService.tryFromService s with
    | .error e => .error e
    | .ok p =>
      match pingAbleListOfServices rest with
      | .error e => .error e
      | .ok ps => .ok (p :: ps)

/-- `ServiceWrapper::new_with_last_status` (connlib.rs 531-546) followed by
`ServiceWrapper::new` (548-561): `page` is lowercased and `count` starts at
0. -/
def ServiceWrapper.new_with_last_status (c : Component) (last_status : ServerLastStatus) :
    Except ConfError ServiceWrapper :=
  match pingAbleListOfServices c.addresses with
  | .error e => .error e
  | .ok v => .ok ⟨last_status, v, c.identity_id, lowerString c.page, 0⟩

/-- How `Configure::try_from` can fail overall: an error propagated by `?`
(the `TomlComponent` → `Component` step), or the `service_w.unwrap()` panic
at configure.rs line 81 after a component's `ServiceWrapper` construction
failed (this also covers a panic raised inside `from_service` by
`ComponentStatus::from(&ComponentResponse)` on an unknown upstream status
string — either way the process panics at that component). -/
inductive LoadError
  | confError (e : ConfError)
  | panicked
deriving DecidableEq

/-- `Configure::convert_cache_vec_to_map` builds a `HashMap` by inserting
every cache entry in order, so a later entry with the same id wins; lookup
is therefore the last matching entry.  `ServerLastStatus::try_from(..)` on
the stored string never fails (its catch-all arm returns `Unknown`). -/
def cacheLookup (cache : List ComponentCache) (id : String) : Option ServerLastStatus :=
  match cache.reverse.find? (fun c => c.id = id) with
  | none => none
  | some c => some (serverLastStatusOfString c.last_status)

/-- `ServiceWrapper::from_service` (connlib.rs 523-529):
`upstream.get_component_status` plus the `.json::<ComponentResponse>()`
decode are abstracted into `getStatus`, which yields the status string of
the upstream response or `none` when the request or decode failed (both
escape through `?`).  A status string `ComponentStatus::try_from` rejects
hits the `unreachable!()` panic inside
`ComponentStatus::from(&ComponentResponse)` (statuspagelib.rs 41-48). -/
def ServiceWrapper.from_service (getStatus : String → String → Option String)
    (c : Component) : Except LoadError ServiceWrapper :=
  match getStatus c.identity_id c.page with
  | none => .error .panicked
  | some statusStr =>
    match componentStatusOfString statusStr with
    | none => .error .panicked
    | some cs =>
      match ServiceWrapper.new_with_last_status c (serverLastStatusOfComponentStatus cs) with
      | .error _ => .error .panicked
      | .ok w => .ok w

/-- The component loop of `Configure::try_from` (configure.rs 64-97).
Per component: `service.try_into()?` propagates a conversion error; then
the wrapper is built from the cached status when the id is in the cache
map, otherwise via `from_service`; a failed wrapper is logged and then
`service_w.unwrap()` panics.  (In `from_service` the upstream-error case is
already folded into `panicked`: the `Err` it returns is unwrapped right
here.) -/
def Configure.try_from (getStatus : String → String → Option String) :
    List TomlComponent → List ComponentCache → Except LoadError (List ServiceWrapper)
  | [], _ => .ok []
  | t :: rest, cache =>
    match t.tryIntoComponent with
    | .error e => .error (.confError e)
    | .ok component =>
      let service_w : Except LoadError ServiceWrapper :=
        match cacheLookup cache component.identity_id with
        | some st =>
          match ServiceWrapper.new_with_last_status component st with
          | .error _ => .error .panicked
          | .ok w => .ok w
        | none => ServiceWrapper.from_service getStatus component
      match service_w with
      | .error e => .error e
      | .ok w =>
        match Configure.try_from getStatus rest cache with
        | .error e => .error e
        | .ok ws => .ok (w :: ws)

/-- The outcome of the startup path of `async_main` (main.rs 94-119) that
the configuration claims are about: the empty-services early `return Ok(())`
(a clean exit), or the result of `Configure::try_from`. -/
inductive StartupResult
  | emptyExit
  | loaded (r : Except LoadError (List ServiceWrapper))
deriving DecidableEq

/-- `async_main` up to the construction of `Configure` (main.rs 99-119):
`is_empty_services` short-circuits to a clean exit before any loading. -/
def asyncMainStartup (getStatus : String → String → Option String)
    (comps : List TomlComponent) (cache : List ComponentCache) : StartupResult :=
  if comps.isEmpty then .emptyExit
  else .loaded (Configure.try_from getStatus comps cache)

/- ===== Theorems ===== -/

lemma mixed_ratio_not_ge (answer n : Nat) (ha : answer ≤ n) (hn : 2 < n) :
    ¬ ((answer : ℚ) / (n : ℚ) ≥ (n : ℚ) / 3 * 2) := by
  rw [ge_iff_le, not_le]
  have hn3 : (3 : ℚ) ≤ (n : ℚ) := by exact_mod_cast hn
  have hnpos : (0 : ℚ) < (n : ℚ) := by linarith
  have h1 : (answer : ℚ) / (n : ℚ) ≤ 1 := by
    rw [div_le_one hnpos]; exact_mod_cast ha
  have h2 : (2 : ℚ) ≤ (n : ℚ) / 3 * 2 := by
    have h3 : (1 : ℚ) ≤ (n : ℚ) / 3 := by
      rw [le_div_iff₀ (by norm_num : (0 : ℚ) < 3)]; linarith
    linarith
  linarith

lemma serverLastStatusOfVec_ne_degraded (v : List Bool) :
    serverLastStatusOfVec v ≠ ServerLastStatus.DegradedPerformance := by
  unfold serverLastStatusOfVec
  intro h
  split_ifs at h with h1 h2 h3 h4 h5 h6 <;>
  first
    | exact ServerLastStatus.noConfusion h
    | exact mixed_ratio_not_ge _ _ (List.length_filter_le _ v) h5 h6

/-- C1: the claim says that for `n > 2` the derived status is
`DegradedPerformance` exactly when `k ≥ n/3 * 2`, so in particular
`[true, true, false]` (n = 3, k = 2) should give `DegradedPerformance`.
The code instead compares the ratio `k/n` (at most 1) against the
threshold `n/3 * 2` (at least 2 for `n > 2`), so that input yields
`PartialOutage`, and the `DegradedPerformance` branch is dead code: no
input vector whatsoever produces `DegradedPerformance`. -/
theorem c1_degraded_threshold_dead_code :
    serverLastStatusOfVec [true, true, false] = ServerLastStatus.PartialOutage ∧
    ∀ v : List Bool, serverLastStatusOfVec v ≠ ServerLastStatus.DegradedPerformance := by
  constructor
  · simp only [serverLastStatusOfVec]
    norm_num
  · exact serverLastStatusOfVec_ne_degraded

lemma update_same (s : ServiceWrapper) (condition : Nat) :
    update_last_status_condition s s.last_status condition = ({ s with count := 0 }, false) := by
  simp [update_last_status_condition]

lemma update_count_le (s : ServiceWrapper) (cand : ServerLastStatus) (condition : Nat)
    (h : s.count ≤ condition) :
    ((update_last_status_condition s cand condition).1).count ≤ condition := by
  unfold update_last_status_condition
  split_ifs <;> simp <;> omega

lemma applyCandidates_count_le (condition : Nat) (cands : List ServerLastStatus) :
    ∀ s : ServiceWrapper, s.count ≤ condition →
      (applyCandidates condition s cands).count ≤ condition := by
  induction cands with
  | nil => intro s hs; exact hs
  | cons c cs ih =>
    intro s hs
    exact ih _ (update_count_le s c condition hs)

lemma repeatSameCandidate_spec (condition : Nat) :
    ∀ (n : Nat) (s : ServiceWrapper),
      (repeatSameCandidate condition n s).last_status = s.last_status ∧
      (0 < n → (repeatSameCandidate condition n s).count = 0) := by
  intro n
  induction n with
  | zero => intro s; exact ⟨rfl, fun h => absurd h (by omega)⟩
  | succ n ih =>
    intro s
    have hstep : repeatSameCandidate condition (n + 1) s
        = repeatSameCandidate condition n { s with count := 0 } := by
      show repeatSameCandidate condition n
        (update_last_status_condition s s.last_status condition).1 = _
      rw [update_same]
    rcases ih { s with count := 0 } with ⟨hl, hc⟩
    refine ⟨by rw [hstep]; exact hl, fun _ => ?_⟩
    rw [hstep]
    cases n with
    | zero => rfl
    | succ m => exact hc (by omega)

/-- C2: one round of `update_last_status_condition` behaves as specified —
an agreeing candidate resets the counter and changes nothing else; a
disagreeing candidate below the confirmation threshold only increments the
counter; a disagreeing candidate at the threshold commits the candidate as
the new status, resets the counter and signals the confirmed change; from
the initial counter value 0 the counter never exceeds the threshold; and
reapplying the current status any number of rounds never changes the
status and keeps the counter at 0. -/
theorem c2_hysteresis_state_machine :
    (∀ (s : ServiceWrapper) (condition : Nat),
        update_last_status_condition s s.last_status condition
          = ({ s with count := 0 }, false)) ∧
    (∀ (s : ServiceWrapper) (cand : ServerLastStatus) (condition : Nat),
        cand ≠ s.last_status → s.count < condition →
        update_last_status_condition s cand condition
          = ({ s with count := s.count + 1 }, false)) ∧
    (∀ (s : ServiceWrapper) (cand : ServerLastStatus) (condition : Nat),
        cand ≠ s.last_status → s.count = condition →
        update_last_status_condition s cand condition
          = ({ s with last_status := cand, count := 0 }, true)) ∧
    (∀ (s : ServiceWrapper) (cand : ServerLastStatus) (condition : Nat),
        s.count ≤ condition →
        ((update_last_status_condition s cand condition).1).count ≤ condition) ∧
    (∀ (condition : Nat) (s : ServiceWrapper) (cands : List ServerLastStatus),
        s.count = 0 → (applyCandidates condition s cands).count ≤ condition) ∧
    (∀ (condition n : Nat) (s : ServiceWrapper),
        (repeatSameCandidate condition n s).last_status = s.last_status ∧
        (0 < n → (repeatSameCandidate condition n s).count = 0)) := by
  refine ⟨update_same, ?_, ?_, update_count_le, ?_, ?_⟩
  · intro s cand condition hne hlt
    have h' : s.last_status ≠ cand := Ne.symm hne
    simp [update_last_status_condition, h', Nat.not_le.mpr hlt]
  · intro s cand condition hne heq
    have h' : s.last_status ≠ cand := Ne.symm hne
    simp [update_last_status_condition, h', heq]
  · intro condition s cands hzero
    exact applyCandidates_count_le condition cands s (by omega)
  · intro condition n s
    exact repeatSameCandidate_spec condition n s

/-- A concrete `ServiceWrapper` with counter 0, used by witnesses. -/
def sampleService : ServiceWrapper :=
  ⟨.Optional, [⟨"example.com:22", .SSH⟩], "uuid-1", "page-1", 0⟩

/-- `sampleService` with its counter already at the threshold 2. -/
def sampleServiceAt2 : ServiceWrapper :=
  ⟨.Optional, [⟨"example.com:22", .SSH⟩], "uuid-1", "page-1", 2⟩

theorem c2_hysteresis_state_machine_witness :
    (update_last_status_condition sampleService sampleService.last_status 2
      = ({ sampleService with count := 0 }, false)) ∧
    (update_last_status_condition sampleService ServerLastStatus.Outage 2
      = ({ sampleService with count := sampleService.count + 1 }, false)) ∧
    (update_last_status_condition sampleServiceAt2 ServerLastStatus.Outage 2
      = ({ sampleServiceAt2 with last_status := ServerLastStatus.Outage, count := 0 }, true)) ∧
    (((update_last_status_condition sampleService ServerLastStatus.Outage 2).1).count ≤ 2) ∧
    ((applyCandidates 2 sampleService
        [ServerLastStatus.Outage, ServerLastStatus.Outage, ServerLastStatus.Outage]).count ≤ 2) ∧
    ((repeatSameCandidate 2 3 sampleService).last_status = sampleService.last_status ∧
      (0 < 3 → (repeatSameCandidate 2 3 sampleService).count = 0)) :=
  ⟨c2_hysteresis_state_machine.1 sampleService 2,
   c2_hysteresis_state_machine.2.1 sampleService .Outage 2 (by decide) (by decide),
   c2_hysteresis_state_machine.2.2.1 sampleServiceAt2 .Outage 2 (by decide) (by decide),
   c2_hysteresis_state_machine.2.2.2.1 sampleService .Outage 2 (by decide),
   c2_hysteresis_state_machine.2.2.2.2.1 2 sampleService _ rfl,
   c2_hysteresis_state_machine.2.2.2.2.2 2 3 sampleService⟩

/-- C3 counterexample: the claim says a timeout-elapsed connect/receive
step makes the SSH, TeamSpeak and RawTCP `ping`s return `Ok(false)` and
never an error, but all three propagate `Elapsed` through `.await?` and
return `Err`. -/
theorem c3_timeout_is_err_counterexample :
    Tcping.ping TcpingConnectResult.elapsed = Except.error PingError.elapsed ∧
    (SSH.ping TcpConnectResult.elapsed TcpWriteResult.written
        (TcpReadResult.completed [])).result = Except.error PingError.elapsed ∧
    TeamSpeak.ping UdpBindResult.bindOk UdpSendResult.sendOk UdpRecvResult.elapsed
      = Except.error PingError.elapsed :=
  ⟨rfl, rfl, rfl⟩

/-- C3 amended: an elapsed connect (tcping, ssh), write (ssh) or receive
(teamspeak) timeout makes the respective `ping` return `Err(Elapsed)`;
connection-refused/reset/aborted (tcping), a connect or write I/O error
(ssh), an elapsed read (ssh) and a receive I/O error (teamspeak) return
`Ok(false)`; and the `match ret` wrapper at the end of
`PingAbleService::ping` maps every `Err` — in particular `Elapsed` — to
`false`, so only at that wrapper level does a timeout become a normal
"unreachable" result. -/
theorem c3_timeout_behavior_amended :
    (Tcping.ping TcpingConnectResult.elapsed = Except.error PingError.elapsed) ∧
    (Tcping.ping TcpingConnectResult.refused = Except.ok false) ∧
    (Tcping.ping TcpingConnectResult.reset = Except.ok false) ∧
    (Tcping.ping TcpingConnectResult.aborted = Except.ok false) ∧
    (Tcping.ping TcpingConnectResult.connected = Except.ok true) ∧
    (Tcping.ping TcpingConnectResult.otherErr = Except.error PingError.ioError) ∧
    (∀ (w : TcpWriteResult) (r : TcpReadResult),
        (SSH.ping TcpConnectResult.elapsed w r).result = Except.error PingError.elapsed) ∧
    (∀ (w : TcpWriteResult) (r : TcpReadResult),
        (SSH.ping TcpConnectResult.connErr w r).result = Except.ok false) ∧
    (∀ r : TcpReadResult,
        (SSH.ping TcpConnectResult.connected TcpWriteResult.elapsed r).result
          = Except.error PingError.elapsed) ∧
    ((SSH.ping TcpConnectResult.connected TcpWriteResult.written TcpReadResult.elapsed).result
        = Except.ok false) ∧
    (TeamSpeak.ping UdpBindResult.bindOk UdpSendResult.sendOk UdpRecvResult.elapsed
        = Except.error PingError.elapsed) ∧
    (TeamSpeak.ping UdpBindResult.bindOk UdpSendResult.sendOk UdpRecvResult.ioErr
        = Except.ok false) ∧
    (∀ e : PingError, PingAbleService.pingWrap (Except.error e) = false) ∧
    (∀ b : Bool, PingAbleService.pingWrap (Except.ok b) = b) := by
  refine ⟨rfl, rfl, rfl, rfl, rfl, rfl, ?_, ?_, ?_, rfl, rfl, rfl, ?_, ?_⟩
  · intro w r; rfl
  · intro w r; rfl
  · intro r; rfl
  · intro e; rfl
  · intro b; rfl

lemma leadMatch_iff (pat : List Nat) :
    ∀ l : List Nat, leadMatch pat l = true ↔ ∃ b, l = pat ++ b := by
  induction pat with
  | nil => intro l; simp [leadMatch]
  | cons p ps ih =>
    intro l
    cases l with
    | nil =>
      simp [leadMatch]
    | cons x xs =>
      simp only [leadMatch, Bool.and_eq_true, beq_iff_eq, ih, List.cons_append]
      constructor
      · rintro ⟨hpx, b, hb⟩
        exact ⟨b, by rw [hpx, hb]⟩
      · rintro ⟨b, hb⟩
        obtain ⟨h1, h2⟩ := List.cons.inj hb
        exact ⟨h1.symm, b, h2⟩

lemma containsSeq_iff (pat : List Nat) :
    ∀ l : List Nat, containsSeq pat l = true ↔ ∃ a b, l = a ++ pat ++ b := by
  intro l
  induction l with
  | nil =>
    simp only [containsSeq, leadMatch_iff]
    constructor
    · rintro ⟨b, hb⟩
      exact ⟨[], b, by simpa using hb⟩
    · rintro ⟨a, b, hb⟩
      obtain ⟨ha, hp, hb2⟩ : a = [] ∧ pat = [] ∧ b = [] := by
        have h := hb.symm
        simp only [List.append_eq_nil] at h
        exact ⟨h.1.1, h.1.2, h.2⟩
      exact ⟨[], by simp [hp]⟩
  | cons x xs ih =>
    simp only [containsSeq, Bool.or_eq_true, leadMatch_iff, ih]
    constructor
    · rintro (⟨b, hb⟩ | ⟨a, b, hb⟩)
      · exact ⟨[], b, by simpa using hb⟩
      · exact ⟨x :: a, b, by simp [hb]⟩
    · rintro ⟨a, b, hb⟩
      cases a with
      | nil => exact Or.inl ⟨b, by simpa using hb⟩
      | cons y ys =>
        obtain ⟨h1, h2⟩ := List.cons.inj (by simpa using hb : x :: xs = y :: (ys ++ pat ++ b))
        exact Or.inr ⟨ys, b, h2⟩

/-- C9 counterexample: the claim says the SSH probe "sends nothing" on the
connection, but a successful invocation writes the fixed 21-byte client
banner `HEAD_DATA` to the socket before reading. -/
theorem c9_ssh_sends_banner_counterexample :
    (SSH.ping TcpConnectResult.connected TcpWriteResult.written
        (TcpReadResult.completed [])).sent = sshHeadData ∧
    sshHeadData ≠ [] :=
  ⟨rfl, by decide⟩

/-- C9 amended: the SSH probe opens a TCP connection, sends the fixed
21-byte banner `SSH-2.0-OpenSSH_8.7\r\n` (never any other data), reads
into a 64-byte zero-initialised buffer before the timeout, and on a
completed read succeeds if and only if that buffer contains the ASCII
substring `"SSH"`. -/
theorem c9_ssh_probe_amended :
    (sshHeadData.length = 21) ∧
    (∀ (c : TcpConnectResult) (w : TcpWriteResult) (r : TcpReadResult),
        (SSH.ping c w r).sent = [] ∨ (SSH.ping c w r).sent = sshHeadData) ∧
    (∀ data : List Nat, (sshBuffer data).length = 64) ∧
    (∀ data : List Nat,
        (SSH.ping TcpConnectResult.connected TcpWriteResult.written
            (TcpReadResult.completed data)).result
          = Except.ok (containsSeq sshPat (sshBuffer data))) ∧
    (∀ data : List Nat,
        containsSeq sshPat (sshBuffer data) = true
          ↔ ∃ a b, sshBuffer data = a ++ sshPat ++ b) := by
  refine ⟨rfl, ?_, ?_, ?_, ?_⟩
  · intro c w r
    cases c <;> cases w <;> cases r <;> simp [SSH.ping]
  · intro data
    have h : (data.take 64).length ≤ 64 := by
      rw [List.length_take]; omega
    simp only [sshBuffer, List.length_append, List.length_replicate]
    omega
  · intro data; rfl
  · intro data
    exact containsSeq_iff sshPat (sshBuffer data)

lemma runServices_round0_probed (probe : Nat → Nat → Bool)
    (rep : String → String → ComponentStatus → Bool) (condition : Nat) :
    ∀ (svcs : List ServiceWrapper) (i : Nat),
      (runServices probe rep 0 condition i svcs).err = none →
      (runServices probe rep 0 condition i svcs).probed = List.replicate svcs.length true := by
  intro svcs
  induction svcs with
  | nil => intro i _; rfl
  | cons s rest ih =>
    intro i herr
    have hskip : ¬ (0 < 0 ∧ ongoing_recheck s = false) := by
      rintro ⟨h, -⟩; omega
    rw [runServices] at herr ⊢
    rw [if_neg hskip] at herr ⊢
    dsimp only at herr ⊢
    by_cases h2 : (update_last_status_condition s
        (serverLastStatusOfVec (ServiceWrapper.pingVec (probe i) s)) condition).2
    · rw [if_pos h2] at herr ⊢
      cases hm : componentStatusOfLast (update_last_status_condition s
          (serverLastStatusOfVec (ServiceWrapper.pingVec (probe i) s)) condition).1.last_status with
      | none =>
        rw [hm] at herr
        exact absurd herr (by simp)
      | some cs =>
        rw [hm] at herr
        dsimp only at herr ⊢
        by_cases hrep : rep (update_last_status_condition s
            (serverLastStatusOfVec (ServiceWrapper.pingVec (probe i) s)) condition).1.report_uuid
            (update_last_status_condition s
            (serverLastStatusOfVec (ServiceWrapper.pingVec (probe i) s)) condition).1.page cs
        · rw [if_pos hrep] at herr ⊢
          dsimp only at herr ⊢
          simp only [List.length_cons, List.replicate_succ]
          exact congrArg (true :: ·) (ih (i + 1) herr)
        · rw [if_neg hrep] at herr
          exact absurd herr (by simp)
    · rw [if_neg h2] at herr ⊢
      dsimp only at herr ⊢
      simp only [List.length_cons, List.replicate_succ]
      exact congrArg (true :: ·) (ih (i + 1) herr)

lemma main_work_eq (probe : Nat → Nat → Nat → Bool)
    (rep : Nat → String → String → ComponentStatus → Bool) (retries : Nat)
    (svcs : List ServiceWrapper) :
    main_work probe rep retries svcs =
      match (runRounds probe rep (retries - 1) 0 retries svcs).2 with
      | some e => ((runRounds probe rep (retries - 1) 0 retries svcs).1, some e)
      | none =>
          ((runRounds probe rep (retries - 1) 0 retries svcs).1.map reset_count, none) := rfl

lemma runServices_later_probed (probe : Nat → Nat → Bool)
    (rep : String → String → ComponentStatus → Bool) (t condition : Nat) (ht : 0 < t) :
    ∀ (svcs : List ServiceWrapper) (i : Nat),
      (runServices probe rep t condition i svcs).err = none →
      (runServices probe rep t condition i svcs).probed = svcs.map ongoing_recheck := by
  intro svcs
  induction svcs with
  | nil => intro i _; rfl
  | cons s rest ih =>
    intro i herr
    by_cases hog : ongoing_recheck s
    · have hskip : ¬ (0 < t ∧ ongoing_recheck s = false) := by
        rintro ⟨-, hf⟩; rw [hog] at hf; exact Bool.noConfusion hf
      rw [runServices] at herr ⊢
      rw [if_neg hskip] at herr ⊢
      dsimp only at herr ⊢
      by_cases h2 : (update_last_status_condition s
          (serverLastStatusOfVec (ServiceWrapper.pingVec (probe i) s)) condition).2
      · rw [if_pos h2] at herr ⊢
        cases hm : componentStatusOfLast (update_last_status_condition s
            (serverLastStatusOfVec (ServiceWrapper.pingVec (probe i) s)) condition).1.last_status with
        | none =>
          rw [hm] at herr
          exact absurd herr (by simp)
        | some cs =>
          rw [hm] at herr
          dsimp only at herr ⊢
          by_cases hrep : rep (update_last_status_condition s
              (serverLastStatusOfVec (ServiceWrapper.pingVec (probe i) s)) condition).1.report_uuid
              (update_last_status_condition s
              (serverLastStatusOfVec (ServiceWrapper.pingVec (probe i) s)) condition).1.page cs
          · rw [if_pos hrep] at herr ⊢
            dsimp only at herr ⊢
            simp only [List.map_cons, hog]
            exact congrArg (true :: ·) (ih (i + 1) herr)
          · rw [if_neg hrep] at herr
            exact absurd herr (by simp)
      · rw [if_neg h2] at herr ⊢
        dsimp only at herr ⊢
        simp only [List.map_cons, hog]
        exact congrArg (true :: ·) (ih (i + 1) herr)
    · have hogf : ongoing_recheck s = false := by simpa using hog
      have hskip : (0 < t ∧ ongoing_recheck s = false) := ⟨ht, hogf⟩
      rw [runServices] at herr ⊢
      rw [if_pos hskip] at herr ⊢
      dsimp only at herr ⊢
      simp only [List.map_cons, hogf]
      exact congrArg (false :: ·) (ih (i + 1) herr)

lemma main_work_counts (probe : Nat → Nat → Nat → Bool)
    (rep : Nat → String → String → ComponentStatus → Bool) (retries : Nat)
    (svcs : List ServiceWrapper) :
    (main_work probe rep retries svcs).2 = none →
    ∀ s ∈ (main_work probe rep retries svcs).1, s.count = 0 := by
  cases hr : (runRounds probe rep (retries - 1) 0 retries svcs).2 with
  | some e =>
    rw [main_work_eq, hr]
    intro h
    exact absurd h (by simp)
  | none =>
    rw [main_work_eq, hr]
    intro _ s hs
    obtain ⟨x, hx, rfl⟩ := List.mem_map.1 hs
    rfl

/-- C6: in a completed check cycle, sub-round 1 (`times = 0`) probes every
component; every later sub-round probes exactly the components whose
pending counter is nonzero (`ongoing_recheck`) at the start of that
sub-round; and when `main_work` finishes without an error every
component's counter is 0 (the final `reset_count` loop). -/
theorem c6_subround_scheduling :
    (∀ (probe : Nat → Nat → Bool) (rep : String → String → ComponentStatus → Bool)
        (condition : Nat) (svcs : List ServiceWrapper),
        (runServices probe rep 0 condition 0 svcs).err = none →
        (runServices probe rep 0 condition 0 svcs).probed
          = List.replicate svcs.length true) ∧
    (∀ (probe : Nat → Nat → Bool) (rep : String → String → ComponentStatus → Bool)
        (t condition : Nat) (svcs : List ServiceWrapper),
        0 < t →
        (runServices probe rep t condition 0 svcs).err = none →
        (runServices probe rep t condition 0 svcs).probed = svcs.map ongoing_recheck) ∧
    (∀ (probe : Nat → Nat → Nat → Bool) (rep : Nat → String → String → ComponentStatus → Bool)
        (retries : Nat) (svcs : List ServiceWrapper),
        (main_work probe rep retries svcs).2 = none →
        ∀ s ∈ (main_work probe rep retries svcs).1, s.count = 0) :=
  ⟨fun probe rep condition svcs => runServices_round0_probed probe rep condition svcs 0,
   fun probe rep t condition svcs ht => runServices_later_probed probe rep t condition ht svcs 0,
   main_work_counts⟩

theorem c6_subround_scheduling_witness :
    ((runServices (fun _ _ => true) (fun _ _ _ => true) 0 3 0 [sampleService]).probed
        = List.replicate [sampleService].length true) ∧
    ((runServices (fun _ _ => true) (fun _ _ _ => true) 1 3 0 [sampleService]).probed
        = [sampleService].map ongoing_recheck) ∧
    (∀ s ∈ (main_work (fun _ _ _ => true) (fun _ _ _ _ => true) 1 [sampleService]).1,
        s.count = 0) :=
  ⟨c6_subround_scheduling.1 (fun _ _ => true) (fun _ _ _ => true) 3 [sampleService] (by decide),
   c6_subround_scheduling.2.1 (fun _ _ => true) (fun _ _ _ => true) 1 3 [sampleService]
     (by decide) (by decide),
   c6_subround_scheduling.2.2 (fun _ _ _ => true) (fun _ _ _ _ => true) 1 [sampleService]
     (by decide)⟩

/-- A tracked component whose single address never answers, used for the
reporter-failure scenario. -/
def svcAlpha : ServiceWrapper :=
  ⟨.Optional, [⟨"alpha.example.com:80", .Tcping⟩], "uuid-alpha", "page-a", 0⟩

/-- A second tracked component, listed after `svcAlpha`. -/
def svcBeta : ServiceWrapper :=
  ⟨.Optional, [⟨"beta.example.com:80", .Tcping⟩], "uuid-beta", "page-b", 0⟩

/-- C4 counterexample: with two components, one sub-round
(`retries = 1`, so `condition = 0`), every probe failing and the reporter
failing, the first component confirms `Outage` and the failed reporter
call makes `main_work` return the error: the second component is not
probed in that sub-round (`probed = [true, false]`) and the scheduling
loop receives the error — contradicting "the cycle continues" and "the
reporter error never aborts the scheduling loop".  The first component's
committed transition to `Outage` is visible in the final state. -/
theorem c4_reporter_failure_counterexample :
    ((main_work (fun _ _ _ => false) (fun _ _ _ _ => false) 1 [svcAlpha, svcBeta]).2
        = some MainError.reporterFailed) ∧
    ((runServices (fun _ _ => false) (fun _ _ _ => false) 0 0 0 [svcAlpha, svcBeta]).probed
        = [true, false]) ∧
    ((main_work (fun _ _ _ => false) (fun _ _ _ _ => false) 1 [svcAlpha, svcBeta]).1
        = [{ svcAlpha with last_status := .Outage }, svcBeta]) := by
  refine ⟨by decide, by decide, by decide⟩

/-- C4 amended: when a confirmed-change event's reporter call fails, the
sub-round stops at that component: the remaining components keep their
previous state and are not probed, the error escapes, and `main_work`
returns it without running the final counter reset — so the error also
terminates the scheduling loop that `?`s `main_work`.  The failing
component's already-committed status transition is not rolled back: its
updated state (`u.1`) is what the sub-round returns. -/
theorem c4_reporter_failure_aborts_amended :
    (∀ (probe : Nat → Nat → Bool) (rep : String → String → ComponentStatus → Bool)
        (t condition : Nat) (s : ServiceWrapper) (rest : List ServiceWrapper)
        (u : ServiceWrapper × Bool) (cs : ComponentStatus),
        ¬ (0 < t ∧ ongoing_recheck s = false) →
        u = update_last_status_condition s
              (serverLastStatusOfVec (ServiceWrapper.pingVec (probe 0) s)) condition →
        u.2 = true →
        componentStatusOfLast u.1.last_status = some cs →
        rep u.1.report_uuid u.1.page cs = false →
        runServices probe rep t condition 0 (s :: rest)
          = ⟨u.1 :: rest, true :: List.replicate rest.length false,
              some MainError.reporterFailed⟩) ∧
    (∀ (probe : Nat → Nat → Nat → Bool) (rep : Nat → String → String → ComponentStatus → Bool)
        (retries : Nat) (svcs : List ServiceWrapper) (e : MainError),
        (runRounds probe rep (retries - 1) 0 retries svcs).2 = some e →
        main_work probe rep retries svcs
          = ((runRounds probe rep (retries - 1) 0 retries svcs).1, some e)) := by
  constructor
  · intro probe rep t condition s rest u cs hskip hu h2 hcs hrep
    subst hu
    rw [runServices]
    rw [if_neg hskip]
    dsimp only
    rw [if_pos h2, hcs]
    dsimp only
    rw [if_neg (by rw [hrep]; exact Bool.false_ne_true)]
  · intro probe rep retries svcs e hr
    rw [main_work_eq, hr]

theorem c4_reporter_failure_aborts_amended_witness :
    (runServices (fun _ _ => false) (fun _ _ _ => false) 0 0 0 [svcAlpha, svcBeta]
      = ⟨({ svcAlpha with last_status := .Outage }, true).1 :: [svcBeta],
          true :: List.replicate [svcBeta].length false, some MainError.reporterFailed⟩) ∧
    (main_work (fun _ _ _ => false) (fun _ _ _ _ => false) 1 [svcAlpha, svcBeta]
      = ((runRounds (fun _ _ _ => false) (fun _ _ _ _ => false) 0 0 1
            [svcAlpha, svcBeta]).1, some MainError.reporterFailed)) :=
  ⟨c4_reporter_failure_aborts_amended.1 (fun _ _ => false) (fun _ _ _ => false) 0 0
      svcAlpha [svcBeta] ({ svcAlpha with last_status := .Outage }, true) .MajorOutage
      (by decide) (by decide) (by decide) (by decide) (by decide),
   c4_reporter_failure_aborts_amended.2 (fun _ _ _ => false) (fun _ _ _ _ => false) 1
      [svcAlpha, svcBeta] .reporterFailed (by decide)⟩

/-- A tracked component with an empty address list, seeded with a
non-`Unknown` status (as a cache or upstream seed would). -/
def emptyAddrService : ServiceWrapper :=
  ⟨.Optional, [], "uuid-empty", "page-e", 0⟩

/-- C10: the conversion feeding the reporter is partial — it is `some` for
exactly the four non-`Unknown` statuses and panics (`none`) on `Unknown`;
a component with no addresses yields the empty probe vector and hence
candidate `Unknown` every round; and a concrete `main_work` cycle over
such a component seeded `Optional` confirms `Unknown` and hits the
`unreachable!()` panic on the confirmed-change reporting path. -/
theorem c10_unknown_status_panics :
    (∀ s : ServerLastStatus,
        componentStatusOfLast s = none ↔ s = ServerLastStatus.Unknown) ∧
    (serverLastStatusOfVec [] = ServerLastStatus.Unknown) ∧
    (ServiceWrapper.pingVec (fun _ => true) emptyAddrService = []) ∧
    ((main_work (fun _ _ _ => true) (fun _ _ _ _ => true) 1 [emptyAddrService]).2
        = some MainError.panicUnknown) := by
  refine ⟨?_, rfl, rfl, by decide⟩
  intro s
  cases s <;> simp [componentStatusOfLast]

lemma u64Sub_eq (a b : Nat) (hba : b ≤ a) (ha : a < 2 ^ 64) : u64Sub a b = a - b := by
  unfold u64Sub
  omega

lemma read_cache_io_err (now : Nat) : read_cache none now = Except.error CacheError.ioError := rfl

lemma read_cache_decode_err (full : Option CacheData) (now : Nat) :
    read_cache (some (none, full)) now = Except.error CacheError.decodeError := rfl

lemma read_cache_version_err (p : PreReadCacheData) (full : Option CacheData) (now : Nat)
    (h : p.version ≠ CURRENT_VERSION) :
    read_cache (some (some p, full)) now = Except.error (CacheError.versionNotMatch p.version) := by
  unfold read_cache
  dsimp only
  rw [if_pos h]

lemma read_cache_outdated (p : PreReadCacheData) (full : Option CacheData) (now : Nat)
    (hv : p.version = CURRENT_VERSION) (hts : p.timestamp ≤ now) (hn : now < 2 ^ 64)
    (hold : DEADLINE < now - p.timestamp) :
    read_cache (some (some p, full)) now = Except.error CacheError.outdated := by
  unfold read_cache
  dsimp only
  rw [if_neg (by simp [hv]), if_pos (by rw [u64Sub_eq now p.timestamp hts hn]; exact hold)]

lemma read_cache_full_err (p : PreReadCacheData) (now : Nat)
    (hv : p.version = CURRENT_VERSION) (hts : p.timestamp ≤ now) (hn : now < 2 ^ 64)
    (hfresh : now - p.timestamp ≤ DEADLINE) :
    read_cache (some (some p, none)) now = Except.error CacheError.decodeFullError := by
  unfold read_cache
  dsimp only
  rw [if_neg (by simp [hv]),
    if_neg (by rw [u64Sub_eq now p.timestamp hts hn]; omega)]

lemma read_cache_ok (p : PreReadCacheData) (d : CacheData) (now : Nat)
    (hv : p.version = CURRENT_VERSION) (hts : p.timestamp ≤ now) (hn : now < 2 ^ 64)
    (hfresh : now - p.timestamp ≤ DEADLINE) :
    read_cache (some (some p, some d)) now = Except.ok d := by
  unfold read_cache
  dsimp only
  rw [if_neg (by simp [hv]),
    if_neg (by rw [u64Sub_eq now p.timestamp hts hn]; omega)]

lemma status_string_roundtrip :
    ∀ s : ServerLastStatus, serverLastStatusOfString (serverLastStatusToString s) = s := by
  intro s
  cases s <;> rfl

lemma from_configure_entries (svcs : List ServiceWrapper) (wtime : Nat) :
    (CacheData.from_configure svcs wtime).data.map
        (fun c => (c.id, serverLastStatusOfString c.last_status))
      = svcs.map (fun s => (s.report_uuid, s.last_status)) := by
  induction svcs with
  | nil => rfl
  | cons s rest ih =>
    simp only [CacheData.from_configure, List.map_cons] at ih ⊢
    refine congrArg₂ (· :: ·) ?_ ih
    simp [ComponentCache.fromService, status_string_roundtrip]

/-- C7: `read_cache` inspects only the `{version, timestamp}` header first:
a version different from `CURRENT_VERSION` fails with the version-mismatch
error regardless of the timestamp; with a matching version, a snapshot
older than `DEADLINE` (600) seconds fails as outdated; only otherwise is
the full body consulted, failing only if it does not parse.  Together with
the I/O and header-parse error cases these are exactly the error cases
(timestamps are u64 values and the clock is assumed not to have gone
backwards past the stored timestamp). -/
theorem c7_read_cache_behavior :
    (∀ now : Nat, read_cache none now = Except.error CacheError.ioError) ∧
    (∀ (full : Option CacheData) (now : Nat),
        read_cache (some (none, full)) now = Except.error CacheError.decodeError) ∧
    (∀ (p : PreReadCacheData) (full : Option CacheData) (now : Nat),
        p.version ≠ CURRENT_VERSION →
        read_cache (some (some p, full)) now
          = Except.error (CacheError.versionNotMatch p.version)) ∧
    (∀ (p : PreReadCacheData) (full : Option CacheData) (now : Nat),
        p.version = CURRENT_VERSION → p.timestamp ≤ now → now < 2 ^ 64 →
        DEADLINE < now - p.timestamp →
        read_cache (some (some p, full)) now = Except.error CacheError.outdated) ∧
    (∀ (p : PreReadCacheData) (now : Nat),
        p.version = CURRENT_VERSION → p.timestamp ≤ now → now < 2 ^ 64 →
        now - p.timestamp ≤ DEADLINE →
        read_cache (some (some p, none)) now = Except.error CacheError.decodeFullError) ∧
    (∀ (p : PreReadCacheData) (d : CacheData) (now : Nat),
        p.version = CURRENT_VERSION → p.timestamp ≤ now → now < 2 ^ 64 →
        now - p.timestamp ≤ DEADLINE →
        read_cache (some (some p, some d)) now = Except.ok d) :=
  ⟨read_cache_io_err, read_cache_decode_err, read_cache_version_err,
   read_cache_outdated, read_cache_full_err, read_cache_ok⟩

theorem c7_read_cache_behavior_witness :
    (read_cache (some (some ⟨1, 1000000⟩, some ⟨1, 1000000, []⟩)) 1000001
        = Except.error (CacheError.versionNotMatch 1)) ∧
    (read_cache (some (some ⟨2, 0⟩, some ⟨2, 0, []⟩)) 601
        = Except.error CacheError.outdated) ∧
    (read_cache (some (some ⟨2, 100⟩, none)) 700
        = Except.error CacheError.decodeFullError) ∧
    (read_cache (some (some ⟨2, 100⟩, some ⟨2, 100, []⟩)) 700
        = Except.ok ⟨2, 100, []⟩) :=
  ⟨c7_read_cache_behavior.2.2.1 ⟨1, 1000000⟩ (some ⟨1, 1000000, []⟩) 1000001 (by decide),
   c7_read_cache_behavior.2.2.2.1 ⟨2, 0⟩ (some ⟨2, 0, []⟩) 601
     (by decide) (by decide) (by decide) (by decide),
   c7_read_cache_behavior.2.2.2.2.1 ⟨2, 100⟩ 700
     (by decide) (by decide) (by decide) (by decide),
   c7_read_cache_behavior.2.2.2.2.2 ⟨2, 100⟩ ⟨2, 100, []⟩ 700
     (by decide) (by decide) (by decide) (by decide)⟩

/-- C8: writing a snapshot (`CacheData::from_configure`: version
`CURRENT_VERSION`, timestamp `wtime`, the current status of every tracked
component) and reading it back within the staleness deadline yields the
same snapshot, and mapping its entries back through
`ServerLastStatus::try_from` recovers exactly the written
`(report_uuid, last_status)` pairs — the status string round-trip is the
identity on every status value. -/
theorem c8_cache_roundtrip :
    (∀ s : ServerLastStatus, serverLastStatusOfString (serverLastStatusToString s) = s) ∧
    (∀ (svcs : List ServiceWrapper) (wtime rtime : Nat),
        wtime ≤ rtime → rtime < 2 ^ 64 → rtime - wtime ≤ DEADLINE →
        read_cache (some (some ⟨CURRENT_VERSION, wtime⟩,
            some (CacheData.from_configure svcs wtime))) rtime
          = Except.ok (CacheData.from_configure svcs wtime)) ∧
    (∀ (svcs : List ServiceWrapper) (wtime : Nat),
        (CacheData.from_configure svcs wtime).data.map
            (fun c => (c.id, serverLastStatusOfString c.last_status))
          = svcs.map (fun s => (s.report_uuid, s.last_status))) :=
  ⟨status_string_roundtrip,
   fun svcs wtime rtime h1 h2 h3 =>
     read_cache_ok ⟨CURRENT_VERSION, wtime⟩ (CacheData.from_configure svcs wtime) rtime
       rfl h1 h2 h3,
   from_configure_entries⟩

theorem c8_cache_roundtrip_witness :
    (read_cache (some (some ⟨CURRENT_VERSION, 100⟩,
        some (CacheData.from_configure [sampleService] 100))) 200
      = Except.ok (CacheData.from_configure [sampleService] 100)) ∧
    ((CacheData.from_configure [sampleService] 100).data.map
        (fun c => (c.id, serverLastStatusOfString c.last_status))
      = [sampleService].map (fun s => (s.report_uuid, s.last_status))) :=
  ⟨c8_cache_roundtrip.2.1 [sampleService] 100 200 (by decide) (by decide) (by decide),
   c8_cache_roundtrip.2.2 [sampleService] 100⟩

/-- A well-formed toml component entry (one tcping address, id found in
`sampleCacheEntries`). -/
def goodToml : TomlComponent :=
  ⟨.str "good.example.com:80|tcping", "uuid-good", "Page-G"⟩

/-- A toml component whose `addresses` field is neither a string nor an
array (e.g. an integer) — the "unparsable addresses field" case. -/
def badAddrToml : TomlComponent :=
  ⟨.other, "uuid-bad", "page-b"⟩

/-- A toml component whose address parses but whose service type `ftp` is
unknown. -/
def badTypeToml : TomlComponent :=
  ⟨.str "bad.example.com:80|ftp", "uuid-badtype", "page-b"⟩

/-- Cache entries for both well-typed ids, so the load takes the cached
(`new_with_last_status`) path and needs no upstream call. -/
def sampleCacheEntries : List ComponentCache :=
  [⟨"uuid-good", "operational"⟩, ⟨"uuid-badtype", "operational"⟩]

/-- C5 counterexample: the claim says a malformed service entry is dropped
while the rest of the load succeeds.  Instead, with a good component
followed by one whose `addresses` field is unparsable, the whole load
returns an error (the `?` on `service.try_into()`), and with a good
component followed by one with an unknown service type, the load panics at
`service_w.unwrap()` — in neither case is an `Ok` target set produced. -/
theorem c5_malformed_entry_counterexample :
    (Configure.try_from (fun _ _ => none) [goodToml, badAddrToml] sampleCacheEntries
        = Except.error (LoadError.confError ConfError.unexpectedValueInAddresses)) ∧
    (Configure.try_from (fun _ _ => none) [goodToml, badTypeToml] sampleCacheEntries
        = Except.error LoadError.panicked) :=
  ⟨by decide, by decide⟩

lemma try_from_ok_length (g : String → String → Option String) :
    ∀ (comps : List TomlComponent) (cache : List ComponentCache) (ws : List ServiceWrapper),
      Configure.try_from g comps cache = .ok ws → ws.length = comps.length := by
  intro comps
  induction comps with
  | nil =>
    intro cache ws h
    rw [Configure.try_from] at h
    injection h with h2
    rw [← h2]
    rfl
  | cons t rest ih =>
    intro cache ws h
    rw [Configure.try_from] at h
    cases hti : t.tryIntoComponent with
    | error e => rw [hti] at h; exact absurd h (by simp)
    | ok component =>
      rw [hti] at h
      dsimp only at h
      cases hsw : (match cacheLookup cache component.identity_id with
        | some st =>
          match ServiceWrapper.new_with_last_status component st with
          | .error _ => Except.error LoadError.panicked
          | .ok w => Except.ok w
        | none => ServiceWrapper.from_service g component) with
      | error e => rw [hsw] at h; exact absurd h (by simp)
      | ok w =>
        rw [hsw] at h
        dsimp only at h
        cases hrec : Configure.try_from g rest cache with
        | error e => rw [hrec] at h; exact absurd h (by simp)
        | ok ws2 =>
          rw [hrec] at h
          dsimp only at h
          injection h with h2
          rw [← h2, List.length_cons, List.length_cons, ih cache ws2 hrec]

/-- C5 amended: a component whose `addresses` field does not convert
(`service.try_into()?`) aborts the whole load with that error; a component
whose `ServiceWrapper` construction fails (e.g. unknown service type, here
on the cached path) makes the load panic at `service_w.unwrap()`; a
successful load always contains one wrapper per configured component, so
no component is ever dropped.  The empty-services early exit is real: with
an empty services list `async_main` returns cleanly before any loading. -/
theorem c5_load_error_behavior_amended :
    (∀ (g : String → String → Option String) (t : TomlComponent)
        (rest : List TomlComponent) (cache : List ComponentCache) (e : ConfError),
        t.tryIntoComponent = .error e →
        Configure.try_from g (t :: rest) cache = .error (.confError e)) ∧
    (∀ (g : String → String → Option String) (t : TomlComponent)
        (rest : List TomlComponent) (cache : List ComponentCache) (c : Component)
        (st : ServerLastStatus) (e : ConfError),
        t.tryIntoComponent = .ok c →
        cacheLookup cache c.identity_id = some st →
        ServiceWrapper.new_with_last_status c st = .error e →
        Configure.try_from g (t :: rest) cache = .error .panicked) ∧
    (∀ (g : String → String → Option String) (comps : List TomlComponent)
        (cache : List ComponentCache) (ws : List ServiceWrapper),
        Configure.try_from g comps cache = .ok ws → ws.length = comps.length) ∧
    (∀ (g : String → String → Option String) (cache : List ComponentCache),
        asyncMainStartup g [] cache = StartupResult.emptyExit) := by
  refine ⟨?_, ?_, fun g => try_from_ok_length g, fun g cache => rfl⟩
  · intro g t rest cache e hti
    rw [Configure.try_from, hti]
  · intro g t rest cache c st e hti hlk hnw
    rw [Configure.try_from, hti]
    dsimp only
    rw [hlk]
    dsimp only
    rw [hnw]

theorem c5_load_error_behavior_amended_witness :
    (Configure.try_from (fun _ _ => none) [badAddrToml] []
        = Except.error (LoadError.confError ConfError.unexpectedValueInAddresses)) ∧
    (Configure.try_from (fun _ _ => none) [badTypeToml] sampleCacheEntries
        = Except.error LoadError.panicked) ∧
    (([⟨.Optional, [⟨"good.example.com:80", .Tcping⟩], "uuid-good", "page-g", 0⟩]
        : List ServiceWrapper).length = [goodToml].length) ∧
    (asyncMainStartup (fun _ _ => none) [] sampleCacheEntries = StartupResult.emptyExit) :=
  ⟨c5_load_error_behavior_amended.1 (fun _ _ => none) badAddrToml [] []
      ConfError.unexpectedValueInAddresses (by decide),
   c5_load_error_behavior_amended.2.1 (fun _ _ => none) badTypeToml [] sampleCacheEntries
      ⟨[⟨"bad.example.com:80", "ftp"⟩], "uuid-badtype", "page-b"⟩ ServerLastStatus.Optional
      ConfError.unexpectedServiceType (by decide) (by decide) (by decide),
   c5_load_error_behavior_amended.2.2.1 (fun _ _ => none) [goodToml] sampleCacheEntries
      [⟨.Optional, [⟨"good.example.com:80", .Tcping⟩], "uuid-good", "page-g", 0⟩] (by decide),
   c5_load_error_behavior_amended.2.2.2 (fun _ _ => none) sampleCacheEntries⟩

end StatusUpstream
